import Mathlib

/-!
Shallow embedding of the SMITE settlement engine (swap engine, wire bridge,
trade log) into Lean 4, translated from the Rust sources under `src/`.

Conventions of the embedding:
* The MySQL database is modelled as the in-memory structure `DB`; each SQL
  statement of the source becomes one pure operation on `DB`.
* Rust `f64` money amounts are modelled as `ℚ`; `i64` ids as `Nat`
  (for ids the source never relies on negativity); UnbelievaBoat bank
  balances (`i64`) as `Int`.
* Fallible service functions return `DB × Except e α`: the returned `DB`
  is the database state at the moment of the return, so an early error
  return keeps any mutations already executed, exactly as the Rust code
  leaves the pool mutated when it bails out with `?`/`return Err`.
* The SQL text compares tickers with `UPPER(..) = UPPER(..)`; the model
  compares tickers with plain string equality (all scenarios use upper-case
  tickers, and no claim depends on case folding).
* Side effects that do not touch the database (Discord DMs, embeds, log
  lines, stored message ids for later message editing) are omitted.
-/

/-- Propositional equality on `Except` results is decidable when it is on
both components; used to evaluate concrete runs inside `decide`. -/
instance exceptDecEq {ε α : Type} [DecidableEq ε] [DecidableEq α] :
    DecidableEq (Except ε α) := fun x y =>
  match x, y with
  | .ok a, .ok b =>
    if h : a = b then .isTrue (by rw [h])
    else .isFalse (fun hc => h (by cases hc; rfl))
  | .ok _, .error _ => .isFalse (fun hc => by cases hc)
  | .error _, .ok _ => .isFalse (fun hc => by cases hc)
  | .error e, .error f =>
    if h : e = f then .isTrue (by rw [h])
    else .isFalse (fun hc => h (by cases hc; rfl))

namespace Smite

/-- Status column of a `currency_swap` row (spec section 3). -/
inductive SwapStatus
  | pending
  | accepted
  | cancelled
  | expired
deriving DecidableEq, Repr

/-- A row of the `account` table: `(id, discord_id, currency_id, balance)`. -/
structure Account where
  id : Nat
  discordId : Nat
  currencyId : Nat
  balance : ℚ
deriving DecidableEq, Repr

/-- A row of the `currency` table: `(id, guild_id, name, ticker)`. -/
structure Currency where
  id : Nat
  guildId : Nat
  name : String
  ticker : String
deriving DecidableEq, Repr

/-- A row of the `currency_swap` table. `makerId`/`takerId` are account ids,
as in the source (`maker_id`, `taker_id` columns reference `account.id`). -/
structure Swap where
  id : Nat
  makerId : Nat
  takerId : Option Nat
  makerCurrencyId : Nat
  takerCurrencyId : Nat
  makerAmount : ℚ
  takerAmount : ℚ
  status : SwapStatus
  createdAt : Nat
deriving DecidableEq, Repr

/-- A row of the `transaction` table: `(uuid, sender_id, receiver_id, amount)`.
Uuids are modelled as naturals supplied by the caller (the source draws
random v4 uuids). -/
structure Txn where
  uuid : Nat
  senderId : Nat
  receiverId : Nat
  amount : ℚ
deriving DecidableEq, Repr

/-- A row of the `tradelog` table: `(base_currency_id, quote_currency_id, price)`. -/
structure TradeLogEntry where
  baseCurrencyId : Nat
  quoteCurrencyId : Nat
  price : ℚ
deriving DecidableEq, Repr

/-- The database. `apiTokens` lists the currency ids that have a configured
(and decryptable) UnbelievaBoat credential row in `api` — the encrypted
token bytes themselves are outside the model. `nextAccountId`/`nextSwapId`
model MySQL auto-increment counters, `now` the SQL `NOW()` clock. -/
structure DB where
  currencies : List Currency
  accounts : List Account
  swaps : List Swap
  txns : List Txn
  tradelog : List TradeLogEntry
  apiTokens : List Nat
  nextAccountId : Nat
  nextSwapId : Nat
  now : Nat
deriving DecidableEq, Repr

/-! ## db::currency (src/db/currency.rs) -/

/-- `get_currency_by_ticker`: `SELECT id, name, ticker FROM currency WHERE UPPER(ticker) = UPPER(?)`. -/
def get_currency_by_ticker (db : DB) (ticker : String) : Option Currency :=
  db.currencies.find? (fun c => c.ticker == ticker)

/-- `get_currency_by_ticker_with_guild`: same row, also exposing `guild_id`. -/
def get_currency_by_ticker_with_guild (db : DB) (ticker : String) : Option Currency :=
  db.currencies.find? (fun c => c.ticker == ticker)

/-- `get_currency_by_id`: `SELECT id, guild_id, name, ticker FROM currency WHERE id = ?`. -/
def get_currency_by_id (db : DB) (currencyId : Nat) : Option Currency :=
  db.currencies.find? (fun c => c.id == currencyId)

/-! ## db::account (src/db/account.rs) -/

/-- Row predicate for `WHERE discord_id = ? AND currency_id = ?`. -/
def acctMatch (discordId currencyId : Nat) (a : Account) : Bool :=
  a.discordId == discordId && a.currencyId == currencyId

/-- `create_account`: `INSERT INTO account (discord_id, currency_id, balance) VALUES (?, ?, 0.0)`;
returns the updated database and `last_insert_id`. -/
def create_account (db : DB) (discordId currencyId : Nat) : DB × Nat :=
  ({ db with
      accounts := db.accounts ++ [⟨db.nextAccountId, discordId, currencyId, 0⟩],
      nextAccountId := db.nextAccountId + 1 },
   db.nextAccountId)

/-- `get_account_balance`: `SELECT balance FROM account WHERE discord_id = ? AND currency_id = ?`. -/
def get_account_balance (db : DB) (discordId currencyId : Nat) : Option ℚ :=
  (db.accounts.find? (acctMatch discordId currencyId)).map Account.balance

/-- `get_account_id`: `SELECT id FROM account WHERE discord_id = ? AND currency_id = ?`. -/
def get_account_id (db : DB) (discordId currencyId : Nat) : Option Nat :=
  (db.accounts.find? (acctMatch discordId currencyId)).map Account.id

/-- `update_balance`: `UPDATE account SET balance = balance + ? WHERE id = ?` (unconditional add). -/
def update_balance (db : DB) (accountId : Nat) (amount : ℚ) : DB :=
  { db with
      accounts := db.accounts.map fun a =>
        if a.id == accountId then { a with balance := a.balance + amount } else a }

/-- `set_balance`: `UPDATE account SET balance = ? WHERE id = ?`. -/
def set_balance (db : DB) (accountId : Nat) (value : ℚ) : DB :=
  { db with
      accounts := db.accounts.map fun a =>
        if a.id == accountId then { a with balance := value } else a }

/-- `SELECT balance FROM account WHERE id = ?` (used inside the wire saga). -/
def acct_balance_by_id (db : DB) (accountId : Nat) : Option ℚ :=
  (db.accounts.find? (fun a => a.id == accountId)).map Account.balance

/-- `get_discord_id_by_account_id`: `SELECT discord_id FROM account WHERE id = ?`. -/
def get_discord_id_by_account_id (db : DB) (accountId : Nat) : Option Nat :=
  (db.accounts.find? (fun a => a.id == accountId)).map Account.discordId

/-! ## db::swap and db::transaction -/

/-- `get_swap_by_id`: `SELECT .. FROM currency_swap WHERE id = ?`. -/
def get_swap_by_id (db : DB) (swapId : Nat) : Option Swap :=
  db.swaps.find? (fun s => s.id == swapId)

/-- Modelled from the spec: `db::swap::insert_swap` is called by
`execute_swap` but is not among the sources under `src/`; per spec section
4.2 create "atomically debit .. and insert a `pending` swap row", it inserts
one `currency_swap` row with the given columns, status `pending`, and
`date_created = NOW()`, returning `last_insert_id`. -/
def insert_swap (db : DB) (makerId : Nat) (takerId : Option Nat)
    (makerCurrencyId takerCurrencyId : Nat) (makerAmount takerAmount : ℚ) : DB × Nat :=
  ({ db with
      swaps := db.swaps ++
        [⟨db.nextSwapId, makerId, takerId, makerCurrencyId, takerCurrencyId,
          makerAmount, takerAmount, SwapStatus.pending, db.now⟩],
      nextSwapId := db.nextSwapId + 1 },
   db.nextSwapId)

/-- Modelled from the spec: `db::swap::update_swap_status` is called by the
swap service but is not among the sources under `src/`; per its call sites
and spec section 4.2 state machine it is the single statement
`UPDATE currency_swap SET status = ? WHERE id = ?`. -/
def update_swap_status (db : DB) (swapId : Nat) (status : SwapStatus) : DB :=
  { db with
      swaps := db.swaps.map fun s =>
        if s.id == swapId then { s with status := status } else s }

/-- Modelled from the spec: `db::swap::update_swap_with_taker` is called by
`accept_swap` for open swaps but is not among the sources under `src/`; per
its call site and spec section 4.2 ("if the swap was open, bind
`taker_account_id` to the actor's account .. set `status = accepted`") it is
`UPDATE currency_swap SET taker_id = ?, status = ? WHERE id = ?`. -/
def update_swap_with_taker (db : DB) (swapId takerAccountId : Nat) (status : SwapStatus) : DB :=
  { db with
      swaps := db.swaps.map fun s =>
        if s.id == swapId then { s with takerId := some takerAccountId, status := status } else s }

/-- `create_transaction`: `INSERT INTO transaction (uuid, sender_id, receiver_id, amount) VALUES (..)`. -/
def create_transaction (db : DB) (uuid senderId receiverId : Nat) (amount : ℚ) : DB :=
  { db with txns := db.txns ++ [⟨uuid, senderId, receiverId, amount⟩] }

/-- The get-or-create pattern the swap service repeats inline
(`get_account_id` then `create_account` on `None`, e.g. lines 85-94 and
262-283 of src/services/swap_service.rs). -/
def get_or_create_account (db : DB) (discordId currencyId : Nat) : DB × Nat :=
  match get_account_id db discordId currencyId with
  | some a => (db, a)
  | none => create_account db discordId currencyId

/-! ## Swap engine (src/services/swap_service.rs)

Error strings keep the wording of the source (emoji stripped). -/

def errCurrencyNotFound : String := "Currency not found"
def errMakerNoAccount : String := "Maker has no account for this currency"
def errMakerNoBalanceRow : String := "Maker has no account"
def errMakerInsufficient : String := "Maker has insufficient balance"
def errTakerNoAccount : String := "Taker has no account"
def errTakerInsufficient : String := "Taker has insufficient balance"
def errSwapNotFound : String := "Swap not found"
def errAlreadyAccepted : String := "This swap has already been accepted!"
def errAlreadyCancelled : String := "This swap has been cancelled!"
def errExpired : String := "This swap has expired!"
def errMakerAccountNotFound : String := "Maker account not found"
def errTakerAccountNotFound : String := "Taker account not found"
def errNotAuthorizedTargeted : String :=
  "You are not authorized to accept this swap. Only the designated taker can accept targeted swaps."
def errCannotAcceptOwnOpen : String :=
  "You cannot accept your own open swap. Another user must accept it."
def errInsufficientToAccept : String := "Insufficient balance."
def errNotAuthorizedDeny : String :=
  "You are not authorized to deny this swap. Only the maker or taker can deny."

/-- Echo returned by `execute_swap` (struct `SwapResult`; display-only
string fields are dropped, `status` keeps the source's string). -/
structure SwapResult where
  swapId : Nat
  makerId : Nat
  takerId : Option Nat
  status : String
deriving DecidableEq, Repr

/-- `execute_swap` (src/services/swap_service.rs lines 29-189).
`taker = some (takerDiscordId, takerAmount, takerTicker)` is the targeted
branch, `taker = none` the open branch. -/
def execute_swap (db : DB) (makerId : Nat) (makerAmount : ℚ) (makerTicker : String)
    (taker : Option (Nat × ℚ × String)) : DB × Except String SwapResult :=
  match get_currency_by_ticker db makerTicker with
  | none => (db, .error errCurrencyNotFound)
  | some mc =>
    match get_account_id db makerId mc.id with
    | none => (db, .error errMakerNoAccount)
    | some makerAccountId =>
      match get_account_balance db makerId mc.id with
      | none => (db, .error errMakerNoBalanceRow)
      | some makerBalance =>
        if makerBalance < makerAmount then (db, .error errMakerInsufficient)
        else
          match taker with
          | some (takerDiscordId, takerAmount, takerTicker) =>
            match get_currency_by_ticker db takerTicker with
            | none => (db, .error errCurrencyNotFound)
            | some tc =>
              let dbA := get_or_create_account db takerDiscordId tc.id
              match get_account_balance dbA.1 takerDiscordId tc.id with
              | none => (dbA.1, .error errTakerNoAccount)
              | some takerBalance =>
                if takerBalance < takerAmount then (dbA.1, .error errTakerInsufficient)
                else
                  let db2 := update_balance dbA.1 makerAccountId (-makerAmount)
                  let ins := insert_swap db2 makerAccountId (some dbA.2) mc.id tc.id
                    makerAmount takerAmount
                  (ins.1, .ok ⟨ins.2, makerId, some takerDiscordId, "pending"⟩)
          | none =>
            let db1 := update_balance db makerAccountId (-makerAmount)
            let ins := insert_swap db1 makerAccountId none mc.id mc.id makerAmount 0
            (ins.1, .ok ⟨ins.2, makerId, none, "open"⟩)

/-- Data carried from the read/validate half of `accept_swap` into the
mutation half: the loaded swap columns plus the resolved maker discord id
and the acceptor's account for the taker currency. -/
structure AcceptInfo where
  sid : Nat
  makerAccountId : Nat
  takerIdExisting : Option Nat
  makerCurrencyId : Nat
  takerCurrencyId : Nat
  makerAmount : ℚ
  takerAmount : ℚ
  makerDiscordId : Nat
  userTakerAccountId : Nat
deriving DecidableEq, Repr

/-- Lines 261-297 of `accept_swap`: after authorization, get-or-create the
acceptor's accounts for the taker and maker currencies and run the balance
check (targeted swaps only, `taker_id_existing.is_some()`). -/
def accept_phase1_rest (db : DB) (userId : Nat) (s : Swap) (makerDiscordId : Nat) :
    DB × Except String AcceptInfo :=
  let dbA := get_or_create_account db userId s.takerCurrencyId
  let dbB := get_or_create_account dbA.1 userId s.makerCurrencyId
  let info : AcceptInfo :=
    ⟨s.id, s.makerId, s.takerId, s.makerCurrencyId, s.takerCurrencyId,
      s.makerAmount, s.takerAmount, makerDiscordId, dbA.2⟩
  if s.takerId.isSome then
    match get_account_balance dbB.1 userId s.takerCurrencyId with
    | none => (dbB.1, .error errTakerNoAccount)
    | some takerBalance =>
      if takerBalance < s.takerAmount then (dbB.1, .error errInsufficientToAccept)
      else (dbB.1, .ok info)
  else (dbB.1, .ok info)

/-- Lines 206-297 of `accept_swap`: load the swap, check `status == pending`,
resolve discord ids (`0` sentinel for an open swap, as in the source),
authorization, get-or-create the acceptor's accounts, and the balance check
(targeted swaps only). Every statement up to the first balance mutation of
the source is here, in source order. -/
def accept_phase1 (db : DB) (userId swapId : Nat) : DB × Except String AcceptInfo :=
  match get_swap_by_id db swapId with
  | none => (db, .error errSwapNotFound)
  | some s =>
    match s.status with
    | .accepted => (db, .error errAlreadyAccepted)
    | .cancelled => (db, .error errAlreadyCancelled)
    | .expired => (db, .error errExpired)
    | .pending =>
      match get_discord_id_by_account_id db s.makerId with
      | none => (db, .error errMakerAccountNotFound)
      | some makerDiscordId =>
        let tdRes : Except String Nat :=
          match s.takerId with
          | some takerAccountId =>
            match get_discord_id_by_account_id db takerAccountId with
            | none => .error errTakerAccountNotFound
            | some td => .ok td
          | none => .ok 0
        match tdRes with
        | .error e => (db, .error e)
        | .ok takerDiscordId =>
          if takerDiscordId ≠ 0 then
            if userId ≠ takerDiscordId then (db, .error errNotAuthorizedTargeted)
            else accept_phase1_rest db userId s makerDiscordId
          else
            if userId = makerDiscordId then (db, .error errCannotAcceptOwnOpen)
            else accept_phase1_rest db userId s makerDiscordId

/-- Result echo of accept/deny (struct `AcceptDenyResult`, display strings dropped). -/
structure AcceptDenyResult where
  swapId : Nat
  makerId : Nat
  takerId : Nat
  status : String
deriving DecidableEq, Repr

/-- Lines 299-401 of `accept_swap`: debit the acceptor, bind the taker /
set `accepted`, credit both sides, record the two transaction legs.
`uuid1`/`uuid2` stand for the two random v4 uuids. -/
def accept_phase2 (db : DB) (userId : Nat) (info : AcceptInfo) (uuid1 uuid2 : Nat) :
    DB × Except String AcceptDenyResult :=
  let db1 :=
    match info.takerIdExisting with
    | none =>
      update_swap_with_taker
        (update_balance db info.userTakerAccountId (-info.takerAmount))
        info.sid info.userTakerAccountId .accepted
    | some _ =>
      update_swap_status
        (update_balance db info.userTakerAccountId (-info.takerAmount))
        info.sid .accepted
  let dbU := get_or_create_account db1 userId info.makerCurrencyId
  let db3 := update_balance dbU.1 dbU.2 info.makerAmount
  let dbM := get_or_create_account db3 info.makerDiscordId info.takerCurrencyId
  let db5 := update_balance dbM.1 dbM.2 info.takerAmount
  let db6 := create_transaction db5 uuid1 info.userTakerAccountId dbM.2 info.takerAmount
  let db7 := create_transaction db6 uuid2 info.makerAccountId dbU.2 info.makerAmount
  (db7, .ok ⟨info.sid, info.makerDiscordId, userId, "accepted"⟩)

/-- `accept_swap` (src/services/swap_service.rs lines 191-406) with an
explicit swap id: the source is the sequential composition of the two
phases, with no enclosing database transaction. -/
def accept_swap (db : DB) (userId swapId uuid1 uuid2 : Nat) :
    DB × Except String AcceptDenyResult :=
  match accept_phase1 db userId swapId with
  | (db1, .error e) => (db1, .error e)
  | (db1, .ok info) => accept_phase2 db1 userId info uuid1 uuid2

/-- `deny_swap` (src/services/swap_service.rs lines 408-520) with an
explicit swap id: status check, authorization (maker, or designated taker),
mark cancelled, refund the maker, and — for targeted swaps — also credit the
taker account with `taker_amount`. -/
def deny_swap (db : DB) (userId swapId : Nat) : DB × Except String AcceptDenyResult :=
  match get_swap_by_id db swapId with
  | none => (db, .error errSwapNotFound)
  | some s =>
    match s.status with
    | .accepted => (db, .error errAlreadyAccepted)
    | .cancelled => (db, .error errAlreadyCancelled)
    | .expired => (db, .error errExpired)
    | .pending =>
      match get_discord_id_by_account_id db s.makerId with
      | none => (db, .error errMakerAccountNotFound)
      | some makerDiscordId =>
        let tdRes : Except String Nat :=
          match s.takerId with
          | some takerAccountId =>
            match get_discord_id_by_account_id db takerAccountId with
            | none => .error errTakerAccountNotFound
            | some td => .ok td
          | none => .ok 0
        match tdRes with
        | .error e => (db, .error e)
        | .ok takerDiscordId =>
          if userId = makerDiscordId ∨ (takerDiscordId ≠ 0 ∧ userId = takerDiscordId) then
            let db1 := update_swap_status db s.id .cancelled
            let db2 := update_balance db1 s.makerId s.makerAmount
            let db3 :=
              match s.takerId with
              | some takerAccountId => update_balance db2 takerAccountId s.takerAmount
              | none => db2
            (db3, .ok ⟨s.id, makerDiscordId, takerDiscordId, "cancelled"⟩)
          else (db, .error errNotAuthorizedDeny)

/-! ## Wire bridge (src/services/wire_service.rs)

The UnbelievaBoat partner is modelled as an oracle `ExtEnv` fixing the
outcome of each external call the saga makes, in call order:
`get1` the pre-check balance fetch (wireIn step 2), `get2` the post-commit
balance re-fetch, `setRes` the balance override.  Database statements never
fail in the model, so `PersistenceError`/`CompensationFailed` paths are
unreachable and the compensating transaction always commits. -/

/-- Partner error classes the code distinguishes (`ApiError::NotFound` is
mapped to a zero bank balance in the wireIn pre-check; everything else is
opaque). -/
inductive ApiErr
  | notFound
  | other
deriving DecidableEq, Repr

/-- Outcomes of the external calls of one saga run, in call order. -/
structure ExtEnv where
  get1 : Except ApiErr Int
  get2 : Except ApiErr Int
  setRes : Except ApiErr Unit
deriving Repr

/-- `WireError` (src/utils/errors.rs), payload strings dropped. -/
inductive WireError
  | Database
  | Transaction
  | InvalidConfig
  | InsufficientBalance
  | Api
  | CompensationFailed
deriving DecidableEq, Repr

/-- `WireDirection`. -/
inductive WireDirection
  | dirIn
  | dirOut
deriving DecidableEq, Repr

/-- `WireResult { smite_balance, ub_balance }`. -/
structure WireResult where
  smite : ℚ
  ub : Int
deriving DecidableEq, Repr

/-- Rust `amount as i64` (truncation toward zero; amounts are nonnegative
in every reachable call, where this agrees with integer division). -/
def asI64 (q : ℚ) : Int := q.num / (q.den : Int)

/-- `compensate_smite_balance` (lines 342-386): open a new transaction,
`UPDATE account SET balance = ? WHERE id = ?` with the pre-step balance,
commit, and surface `WireError::Api` ("Your balance has been restored"). -/
def compensate_smite_balance (db : DB) (accountId : Nat) (originalBalance : ℚ) :
    DB × Except WireError WireResult :=
  (set_balance db accountId originalBalance, .error .Api)

/-- The committed local phase plus the external phase of
`execute_wire_transfer` (lines 180-315), entered once the direction-specific
pre-check has passed and the account id is known. -/
def wire_main_phase (db : DB) (dir : WireDirection) (amount : ℚ) (accountId : Nat)
    (env : ExtEnv) : DB × Except WireError WireResult :=
  match acct_balance_by_id db accountId with
  | none => (db, .error .Database)
  | some currentSmiteBalance =>
    let newSmiteBalance :=
      match dir with
      | .dirIn => currentSmiteBalance + amount
      | .dirOut => currentSmiteBalance - amount
    let db2 := set_balance db accountId newSmiteBalance
    match dir with
    | .dirIn =>
      match env.get2 with
      | .error _ => (db2, .error .Api)
      | .ok ubBank =>
        let newUbBank := ubBank - asI64 amount
        match env.setRes with
        | .ok _ => (db2, .ok ⟨newSmiteBalance, newUbBank⟩)
        | .error _ => compensate_smite_balance db2 accountId currentSmiteBalance
    | .dirOut =>
      match env.get2 with
      | .error _ => compensate_smite_balance db2 accountId currentSmiteBalance
      | .ok ubBank =>
        let newUbBank := ubBank + asI64 amount
        match env.setRes with
        | .ok _ => (db2, .ok ⟨newSmiteBalance, newUbBank⟩)
        | .error _ => compensate_smite_balance db2 accountId currentSmiteBalance

/-- `execute_wire_transfer` (src/services/wire_service.rs lines 86-316):
resolve the currency and its credential, run the direction-specific source
balance pre-check, commit the local balance change, then call the partner
(decryption and rate limiting have no database effect and are outside the
model). -/
def execute_wire_transfer (db : DB) (userId : Nat) (dir : WireDirection) (amount : ℚ)
    (currencyTicker : String) (env : ExtEnv) : DB × Except WireError WireResult :=
  match get_currency_by_ticker_with_guild db currencyTicker with
  | none => (db, .error .InvalidConfig)
  | some c =>
    if c.id ∈ db.apiTokens then
      match dir with
      | .dirIn =>
        let pre : Except WireError Int :=
          match env.get1 with
          | .ok b => .ok b
          | .error .notFound => .ok 0
          | .error .other => .error .Api
        match pre with
        | .error e => (db, .error e)
        | .ok ubBankAmount =>
          if ubBankAmount < asI64 amount then (db, .error .InsufficientBalance)
          else
            match get_account_id db userId c.id with
            | some accountId => wire_main_phase db .dirIn amount accountId env
            | none =>
              let created := create_account db userId c.id
              wire_main_phase created.1 .dirIn amount created.2 env
      | .dirOut =>
        let currentSmiteBalance := (get_account_balance db userId c.id).getD 0
        if currentSmiteBalance < amount then (db, .error .InsufficientBalance)
        else
          match get_account_id db userId c.id with
          | some accountId => wire_main_phase db .dirOut amount accountId env
          | none => (db, .error .InsufficientBalance)
    else (db, .error .InvalidConfig)

/-- `wire_in`. -/
def wire_in (db : DB) (userId : Nat) (amount : ℚ) (currencyTicker : String) (env : ExtEnv) :
    DB × Except WireError WireResult :=
  execute_wire_transfer db userId .dirIn amount currencyTicker env

/-- `wire_out`. -/
def wire_out (db : DB) (userId : Nat) (amount : ℚ) (currencyTicker : String) (env : ExtEnv) :
    DB × Except WireError WireResult :=
  execute_wire_transfer db userId .dirOut amount currencyTicker env

/-! ## Trade log (src/db/tradelog.rs) -/

/-- `normalize_pair`: fetch both tickers (`unwrap_or_default`, so a missing
currency contributes the empty string) and order by `ticker1 <= ticker2`;
returns `(base_currency_id, quote_currency_id, is_reversed)`. -/
def normalize_pair (db : DB) (currencyId1 currencyId2 : Nat) : Nat × Nat × Bool :=
  let ticker1 := ((get_currency_by_id db currencyId1).map Currency.ticker).getD ""
  let ticker2 := ((get_currency_by_id db currencyId2).map Currency.ticker).getD ""
  if ticker1 ≤ ticker2 then (currencyId1, currencyId2, false)
  else (currencyId2, currencyId1, true)

/-- The `WHERE` clause of `calculate_vwap`: accepted swaps whose maker
currency is the requested base, taker currency the requested quote, and
`date_created >= NOW() - INTERVAL ..` (the window is `[cutoff, now]`). -/
def vwap_qualifying (swaps : List Swap) (baseCurrencyId quoteCurrencyId cutoff : Nat) :
    List Swap :=
  swaps.filter fun s =>
    s.makerCurrencyId == baseCurrencyId && s.takerCurrencyId == quoteCurrencyId &&
      s.status == SwapStatus.accepted && cutoff ≤ s.createdAt

/-- `calculate_vwap` (src/db/tradelog.rs lines 160-202):
`SUM(taker_amount)` and `SUM(maker_amount)` over the qualifying swaps
(`COALESCE(.., '0')` makes an empty sum `0`); the quotient when the maker
sum is positive, else `None`. -/
def calculate_vwap (swaps : List Swap) (baseCurrencyId quoteCurrencyId cutoff : Nat) :
    Option ℚ :=
  let qual := vwap_qualifying swaps baseCurrencyId quoteCurrencyId cutoff
  let totalTaker := (qual.map Swap.takerAmount).sum
  let totalMaker := (qual.map Swap.makerAmount).sum
  if 0 < totalMaker then some (totalTaker / totalMaker) else none

/-! ## Well-formedness

Invariants MySQL guarantees for the real tables: primary keys are unique
and auto-increment counters dominate every existing id. -/

/-- `account.id` is a primary key. -/
def accountIdsNodup (db : DB) : Prop := (db.accounts.map Account.id).Nodup

/-- Auto-increment: every account id is below the next one to be issued. -/
def accountIdsBounded (db : DB) : Prop := ∀ a ∈ db.accounts, a.id < db.nextAccountId

/-- Auto-increment: every swap id is below the next one to be issued. -/
def swapIdsBounded (db : DB) : Prop := ∀ s ∈ db.swaps, s.id < db.nextSwapId

/-- The conjunction of the table invariants. -/
def WF (db : DB) : Prop := accountIdsNodup db ∧ accountIdsBounded db ∧ swapIdsBounded db

instance (db : DB) : Decidable (accountIdsNodup db) := by
  unfold accountIdsNodup; infer_instance

instance (db : DB) : Decidable (accountIdsBounded db) := by
  unfold accountIdsBounded; infer_instance

instance (db : DB) : Decidable (swapIdsBounded db) := by
  unfold swapIdsBounded; infer_instance

instance (db : DB) : Decidable (WF db) := by
  unfold WF; infer_instance

/-! ## List-level helper lemmas -/

theorem find?_map_inv {α : Type} (g : α → α) (p : α → Bool)
    (hg : ∀ x, p (g x) = p x) (l : List α) :
    (l.map g).find? p = (l.find? p).map g := by
  induction l with
  | nil => rfl
  | cons x xs ih =>
    cases hpx : p x with
    | true =>
      have hgx : p (g x) = true := by rw [hg x, hpx]
      simp [List.find?_cons_of_pos, hpx, hgx]
    | false =>
      have hgx : p (g x) = false := by rw [hg x, hpx]
      simp [List.find?_cons_of_neg, hpx, hgx, ih]

theorem find?_append_some {α : Type} (p : α → Bool) (l₁ l₂ : List α) (r : α)
    (h : l₁.find? p = some r) : (l₁ ++ l₂).find? p = some r := by
  induction l₁ with
  | nil => simp [List.find?] at h
  | cons x xs ih =>
    rw [List.cons_append]
    cases hpx : p x with
    | true =>
      rw [List.find?_cons_of_pos _ hpx] at h
      rw [List.find?_cons_of_pos _ hpx]
      exact h
    | false =>
      have hnx : ¬ p x = true := by simp [hpx]
      rw [List.find?_cons_of_neg _ hnx] at h
      rw [List.find?_cons_of_neg _ hnx]
      exact ih h

theorem find?_append_none {α : Type} (p : α → Bool) (l₁ l₂ : List α)
    (h : l₁.find? p = none) : (l₁ ++ l₂).find? p = l₂.find? p := by
  induction l₁ with
  | nil => rfl
  | cons x xs ih =>
    rw [List.cons_append]
    cases hpx : p x with
    | true => rw [List.find?_cons_of_pos _ hpx] at h; exact absurd h (by simp)
    | false =>
      have hnx : ¬ p x = true := by simp [hpx]
      rw [List.find?_cons_of_neg _ hnx] at h
      rw [List.find?_cons_of_neg _ hnx]
      exact ih h

theorem find?_by_id_of_find? {l : List Account} (hnd : (l.map Account.id).Nodup)
    {p : Account → Bool} {r : Account} (hr : l.find? p = some r) :
    l.find? (fun a => a.id == r.id) = some r := by
  induction l with
  | nil => simp [List.find?] at hr
  | cons x xs ih =>
    simp only [List.map_cons, List.nodup_cons] at hnd
    cases hpx : p x with
    | true =>
      rw [List.find?_cons_of_pos _ hpx] at hr
      have hxr : x = r := by exact Option.some.inj hr
      subst hxr
      simp [List.find?_cons]
    | false =>
      have hnx : ¬ p x = true := by simp [hpx]
      rw [List.find?_cons_of_neg _ hnx] at hr
      have hrmem : r ∈ xs := List.mem_of_find?_eq_some hr
      have hne : x.id ≠ r.id := by
        intro hEq
        exact hnd.1 (hEq ▸ List.mem_map_of_mem Account.id hrmem)
      have hb : (x.id == r.id) = false := by simp [hne]
      simp only [List.find?_cons, hb]
      exact ih hnd.2 hr

/-! ## Projection lemmas: which tables each operation leaves untouched -/

@[simp] theorem update_balance_swaps (db : DB) (k : Nat) (δ : ℚ) :
    (update_balance db k δ).swaps = db.swaps := rfl

@[simp] theorem update_balance_txns (db : DB) (k : Nat) (δ : ℚ) :
    (update_balance db k δ).txns = db.txns := rfl

@[simp] theorem update_balance_tradelog (db : DB) (k : Nat) (δ : ℚ) :
    (update_balance db k δ).tradelog = db.tradelog := rfl

@[simp] theorem update_balance_currencies (db : DB) (k : Nat) (δ : ℚ) :
    (update_balance db k δ).currencies = db.currencies := rfl

@[simp] theorem set_balance_swaps (db : DB) (k : Nat) (v : ℚ) :
    (set_balance db k v).swaps = db.swaps := rfl

@[simp] theorem set_balance_txns (db : DB) (k : Nat) (v : ℚ) :
    (set_balance db k v).txns = db.txns := rfl

@[simp] theorem set_balance_tradelog (db : DB) (k : Nat) (v : ℚ) :
    (set_balance db k v).tradelog = db.tradelog := rfl

@[simp] theorem create_account_swaps (db : DB) (u c : Nat) :
    (create_account db u c).1.swaps = db.swaps := rfl

@[simp] theorem create_account_txns (db : DB) (u c : Nat) :
    (create_account db u c).1.txns = db.txns := rfl

@[simp] theorem create_account_tradelog (db : DB) (u c : Nat) :
    (create_account db u c).1.tradelog = db.tradelog := rfl

@[simp] theorem create_account_nextSwapId (db : DB) (u c : Nat) :
    (create_account db u c).1.nextSwapId = db.nextSwapId := rfl

@[simp] theorem insert_swap_accounts (db : DB) (m : Nat) (t : Option Nat) (mc tc : Nat)
    (ma ta : ℚ) : (insert_swap db m t mc tc ma ta).1.accounts = db.accounts := rfl

@[simp] theorem insert_swap_txns (db : DB) (m : Nat) (t : Option Nat) (mc tc : Nat)
    (ma ta : ℚ) : (insert_swap db m t mc tc ma ta).1.txns = db.txns := rfl

@[simp] theorem insert_swap_tradelog (db : DB) (m : Nat) (t : Option Nat) (mc tc : Nat)
    (ma ta : ℚ) : (insert_swap db m t mc tc ma ta).1.tradelog = db.tradelog := rfl

@[simp] theorem update_swap_status_accounts (db : DB) (i : Nat) (st : SwapStatus) :
    (update_swap_status db i st).accounts = db.accounts := rfl

@[simp] theorem update_swap_status_txns (db : DB) (i : Nat) (st : SwapStatus) :
    (update_swap_status db i st).txns = db.txns := rfl

@[simp] theorem update_swap_status_tradelog (db : DB) (i : Nat) (st : SwapStatus) :
    (update_swap_status db i st).tradelog = db.tradelog := rfl

@[simp] theorem update_swap_with_taker_accounts (db : DB) (i t : Nat) (st : SwapStatus) :
    (update_swap_with_taker db i t st).accounts = db.accounts := rfl

@[simp] theorem update_swap_with_taker_txns (db : DB) (i t : Nat) (st : SwapStatus) :
    (update_swap_with_taker db i t st).txns = db.txns := rfl

@[simp] theorem update_swap_with_taker_tradelog (db : DB) (i t : Nat) (st : SwapStatus) :
    (update_swap_with_taker db i t st).tradelog = db.tradelog := rfl

@[simp] theorem create_transaction_accounts (db : DB) (u s r : Nat) (a : ℚ) :
    (create_transaction db u s r a).accounts = db.accounts := rfl

@[simp] theorem create_transaction_swaps (db : DB) (u s r : Nat) (a : ℚ) :
    (create_transaction db u s r a).swaps = db.swaps := rfl

@[simp] theorem create_transaction_tradelog (db : DB) (u s r : Nat) (a : ℚ) :
    (create_transaction db u s r a).tradelog = db.tradelog := rfl

@[simp] theorem create_transaction_txns (db : DB) (u s r : Nat) (a : ℚ) :
    (create_transaction db u s r a).txns = db.txns ++ [⟨u, s, r, a⟩] := rfl

@[simp] theorem update_balance_nextSwapId (db : DB) (k : Nat) (δ : ℚ) :
    (update_balance db k δ).nextSwapId = db.nextSwapId := rfl

@[simp] theorem update_balance_now (db : DB) (k : Nat) (δ : ℚ) :
    (update_balance db k δ).now = db.now := rfl

@[simp] theorem create_account_now (db : DB) (u c : Nat) :
    (create_account db u c).1.now = db.now := rfl

@[simp] theorem get_or_create_swaps (db : DB) (u c : Nat) :
    (get_or_create_account db u c).1.swaps = db.swaps := by
  unfold get_or_create_account
  cases get_account_id db u c <;> rfl

@[simp] theorem get_or_create_txns (db : DB) (u c : Nat) :
    (get_or_create_account db u c).1.txns = db.txns := by
  unfold get_or_create_account
  cases get_account_id db u c <;> rfl

@[simp] theorem get_or_create_tradelog (db : DB) (u c : Nat) :
    (get_or_create_account db u c).1.tradelog = db.tradelog := by
  unfold get_or_create_account
  cases get_account_id db u c <;> rfl

@[simp] theorem get_or_create_nextSwapId (db : DB) (u c : Nat) :
    (get_or_create_account db u c).1.nextSwapId = db.nextSwapId := by
  unfold get_or_create_account
  cases get_account_id db u c <;> rfl

@[simp] theorem get_or_create_now (db : DB) (u c : Nat) :
    (get_or_create_account db u c).1.now = db.now := by
  unfold get_or_create_account
  cases get_account_id db u c <;> rfl

/-- Account lookups read only the `account` table, so the swap-table and
transaction-table writers leave them unchanged (all definitional). -/

@[simp] theorem get_account_id_update_swap_status (db : DB) (i : Nat) (st : SwapStatus)
    (u c : Nat) : get_account_id (update_swap_status db i st) u c = get_account_id db u c := rfl

@[simp] theorem get_account_id_update_swap_with_taker (db : DB) (i t : Nat) (st : SwapStatus)
    (u c : Nat) :
    get_account_id (update_swap_with_taker db i t st) u c = get_account_id db u c := rfl

@[simp] theorem get_account_id_insert_swap (db : DB) (m : Nat) (t : Option Nat) (mc tc : Nat)
    (ma ta : ℚ) (u c : Nat) :
    get_account_id (insert_swap db m t mc tc ma ta).1 u c = get_account_id db u c := rfl

@[simp] theorem get_account_id_create_transaction (db : DB) (x s r : Nat) (a : ℚ) (u c : Nat) :
    get_account_id (create_transaction db x s r a) u c = get_account_id db u c := rfl

@[simp] theorem get_account_balance_update_swap_status (db : DB) (i : Nat) (st : SwapStatus)
    (u c : Nat) :
    get_account_balance (update_swap_status db i st) u c = get_account_balance db u c := rfl

@[simp] theorem get_account_balance_update_swap_with_taker (db : DB) (i t : Nat)
    (st : SwapStatus) (u c : Nat) :
    get_account_balance (update_swap_with_taker db i t st) u c = get_account_balance db u c := rfl

@[simp] theorem get_account_balance_insert_swap (db : DB) (m : Nat) (t : Option Nat)
    (mc tc : Nat) (ma ta : ℚ) (u c : Nat) :
    get_account_balance (insert_swap db m t mc tc ma ta).1 u c = get_account_balance db u c := rfl

@[simp] theorem get_account_balance_create_transaction (db : DB) (x s r : Nat) (a : ℚ)
    (u c : Nat) :
    get_account_balance (create_transaction db x s r a) u c = get_account_balance db u c := rfl

@[simp] theorem acct_balance_by_id_update_swap_status (db : DB) (i : Nat) (st : SwapStatus)
    (j : Nat) : acct_balance_by_id (update_swap_status db i st) j = acct_balance_by_id db j := rfl

@[simp] theorem acct_balance_by_id_update_swap_with_taker (db : DB) (i t : Nat)
    (st : SwapStatus) (j : Nat) :
    acct_balance_by_id (update_swap_with_taker db i t st) j = acct_balance_by_id db j := rfl

@[simp] theorem acct_balance_by_id_create_transaction (db : DB) (x s r : Nat) (a : ℚ)
    (j : Nat) : acct_balance_by_id (create_transaction db x s r a) j = acct_balance_by_id db j := rfl

@[simp] theorem get_swap_by_id_update_balance (db : DB) (k : Nat) (δ : ℚ) (i : Nat) :
    get_swap_by_id (update_balance db k δ) i = get_swap_by_id db i := rfl

@[simp] theorem get_swap_by_id_create_transaction (db : DB) (x s r : Nat) (a : ℚ) (i : Nat) :
    get_swap_by_id (create_transaction db x s r a) i = get_swap_by_id db i := rfl

/-! ## Behaviour lemmas for account lookups under the database operations -/

theorem acctMatch_balance_map (u c k : Nat) (δ : ℚ) (a : Account) :
    acctMatch u c (if a.id == k then { a with balance := a.balance + δ } else a) =
      acctMatch u c a := by
  by_cases h : a.id == k <;> simp [h, acctMatch]

theorem acctMatch_set_map (u c k : Nat) (v : ℚ) (a : Account) :
    acctMatch u c (if a.id == k then { a with balance := v } else a) = acctMatch u c a := by
  by_cases h : a.id == k <;> simp [h, acctMatch]

theorem idMatch_balance_map (j k : Nat) (δ : ℚ) (a : Account) :
    ((if a.id == k then { a with balance := a.balance + δ } else a).id == j) = (a.id == j) := by
  by_cases h : a.id == k <;> simp [h]

theorem idMatch_set_map (j k : Nat) (v : ℚ) (a : Account) :
    ((if a.id == k then { a with balance := v } else a).id == j) = (a.id == j) := by
  by_cases h : a.id == k <;> simp [h]

theorem get_account_id_update_balance (db : DB) (k : Nat) (δ : ℚ) (u c : Nat) :
    get_account_id (update_balance db k δ) u c = get_account_id db u c := by
  unfold get_account_id update_balance
  rw [find?_map_inv _ _ (acctMatch_balance_map u c k δ)]
  cases db.accounts.find? (acctMatch u c) with
  | none => rfl
  | some r => by_cases h : r.id = k <;> simp [h]

theorem get_account_id_set_balance (db : DB) (k : Nat) (v : ℚ) (u c : Nat) :
    get_account_id (set_balance db k v) u c = get_account_id db u c := by
  unfold get_account_id set_balance
  rw [find?_map_inv _ _ (acctMatch_set_map u c k v)]
  cases db.accounts.find? (acctMatch u c) with
  | none => rfl
  | some r => by_cases h : r.id = k <;> simp [h]

theorem get_account_balance_update_self (db : DB) (k : Nat) (δ : ℚ) (u c : Nat) (b : ℚ)
    (hid : get_account_id db u c = some k) (hb : get_account_balance db u c = some b) :
    get_account_balance (update_balance db k δ) u c = some (b + δ) := by
  unfold get_account_id at hid
  unfold get_account_balance at hb ⊢
  unfold update_balance
  rw [find?_map_inv _ _ (acctMatch_balance_map u c k δ)]
  cases hr : db.accounts.find? (acctMatch u c) with
  | none => rw [hr] at hid; exact absurd hid (by simp)
  | some r =>
    rw [hr] at hid hb
    have hidr : r.id = k := by simpa using hid
    have hbr : r.balance = b := by simpa using hb
    simp [hidr, hbr]

theorem get_account_balance_update_other (db : DB) (k : Nat) (δ : ℚ) (u c j : Nat)
    (hid : get_account_id db u c = some j) (hjk : j ≠ k) :
    get_account_balance (update_balance db k δ) u c = get_account_balance db u c := by
  unfold get_account_id at hid
  unfold get_account_balance update_balance
  rw [find?_map_inv _ _ (acctMatch_balance_map u c k δ)]
  cases hr : db.accounts.find? (acctMatch u c) with
  | none => rfl
  | some r =>
    rw [hr] at hid
    have hidr : r.id = j := by simpa using hid
    have hne : r.id ≠ k := by rw [hidr]; exact hjk
    simp [hne]

theorem get_account_balance_set_self (db : DB) (k : Nat) (v : ℚ) (u c : Nat)
    (hid : get_account_id db u c = some k) :
    get_account_balance (set_balance db k v) u c = some v := by
  unfold get_account_id at hid
  unfold get_account_balance set_balance
  rw [find?_map_inv _ _ (acctMatch_set_map u c k v)]
  cases hr : db.accounts.find? (acctMatch u c) with
  | none => rw [hr] at hid; exact absurd hid (by simp)
  | some r =>
    rw [hr] at hid
    have hidr : r.id = k := by simpa using hid
    simp [hidr]

theorem acct_balance_by_id_update_self (db : DB) (k : Nat) (δ : ℚ) (b : ℚ)
    (hb : acct_balance_by_id db k = some b) :
    acct_balance_by_id (update_balance db k δ) k = some (b + δ) := by
  unfold acct_balance_by_id at hb ⊢
  unfold update_balance
  rw [find?_map_inv _ _ (idMatch_balance_map k k δ)]
  cases hr : db.accounts.find? (fun a => a.id == k) with
  | none => rw [hr] at hb; exact absurd hb (by simp)
  | some r =>
    rw [hr] at hb
    have hidr : r.id = k := by
      have := List.find?_some hr
      simpa using this
    have hbr : r.balance = b := by simpa using hb
    simp [hidr, hbr]

theorem acct_balance_by_id_update_other (db : DB) (k j : Nat) (δ : ℚ) (hjk : j ≠ k) :
    acct_balance_by_id (update_balance db k δ) j = acct_balance_by_id db j := by
  unfold acct_balance_by_id update_balance
  rw [find?_map_inv _ _ (idMatch_balance_map j k δ)]
  cases hr : db.accounts.find? (fun a => a.id == j) with
  | none => rfl
  | some r =>
    have hidr : r.id = j := by
      have := List.find?_some hr
      simpa using this
    have hne : r.id ≠ k := by rw [hidr]; exact hjk
    simp [hne]

theorem acct_balance_by_id_set_self (db : DB) (k : Nat) (v : ℚ) (b : ℚ)
    (hb : acct_balance_by_id db k = some b) :
    acct_balance_by_id (set_balance db k v) k = some v := by
  unfold acct_balance_by_id at hb ⊢
  unfold set_balance
  rw [find?_map_inv _ _ (idMatch_set_map k k v)]
  cases hr : db.accounts.find? (fun a => a.id == k) with
  | none => rw [hr] at hb; exact absurd hb (by simp)
  | some r =>
    have hidr : r.id = k := by
      have := List.find?_some hr
      simpa using this
    simp [hidr]

theorem get_account_id_set_self_balance (db : DB) (k : Nat) (v : ℚ) (u c : Nat)
    (hid : get_account_id db u c = some k) :
    get_account_id (set_balance db k v) u c = some k := by
  rw [get_account_id_set_balance]; exact hid

theorem acct_balance_by_id_of_match (db : DB) (u c k : Nat) (b : ℚ)
    (hnd : accountIdsNodup db)
    (hid : get_account_id db u c = some k) (hb : get_account_balance db u c = some b) :
    acct_balance_by_id db k = some b := by
  unfold get_account_id at hid
  unfold get_account_balance at hb
  unfold acct_balance_by_id
  cases hr : db.accounts.find? (acctMatch u c) with
  | none => rw [hr] at hid; exact absurd hid (by simp)
  | some r =>
    rw [hr] at hid hb
    have hidr : r.id = k := by simpa using hid
    have hbr : r.balance = b := by simpa using hb
    have := find?_by_id_of_find? hnd hr
    rw [hidr] at this
    rw [this]
    simp [hbr]

theorem get_or_create_found (db : DB) (u c j : Nat) (hid : get_account_id db u c = some j) :
    get_or_create_account db u c = (db, j) := by
  unfold get_or_create_account
  rw [hid]

theorem get_account_id_create (db : DB) (u c j uX cX : Nat)
    (hid : get_account_id db u c = some j) :
    get_account_id (create_account db uX cX).1 u c = some j := by
  unfold get_account_id at hid ⊢
  unfold create_account
  cases hr : db.accounts.find? (acctMatch u c) with
  | none => rw [hr] at hid; exact absurd hid (by simp)
  | some r =>
    rw [hr] at hid
    simp only
    rw [find?_append_some _ _ _ _ hr]
    exact hid

theorem get_account_balance_create (db : DB) (u c : Nat) (b : ℚ) (uX cX : Nat)
    (hb : get_account_balance db u c = some b) :
    get_account_balance (create_account db uX cX).1 u c = some b := by
  unfold get_account_balance at hb ⊢
  unfold create_account
  cases hr : db.accounts.find? (acctMatch u c) with
  | none => rw [hr] at hb; exact absurd hb (by simp)
  | some r =>
    rw [hr] at hb
    simp only
    rw [find?_append_some _ _ _ _ hr]
    exact hb

theorem get_discord_id_update_balance (db : DB) (k : Nat) (δ : ℚ) (j : Nat) :
    get_discord_id_by_account_id (update_balance db k δ) j =
      get_discord_id_by_account_id db j := by
  unfold get_discord_id_by_account_id update_balance
  rw [find?_map_inv _ _ (idMatch_balance_map j k δ)]
  cases hr : db.accounts.find? (fun a => a.id == j) with
  | none => rfl
  | some r => by_cases h : r.id = k <;> simp [h]

theorem get_discord_id_create (db : DB) (j d uX cX : Nat)
    (hd : get_discord_id_by_account_id db j = some d) :
    get_discord_id_by_account_id (create_account db uX cX).1 j = some d := by
  unfold get_discord_id_by_account_id at hd ⊢
  unfold create_account
  cases hr : db.accounts.find? (fun a => a.id == j) with
  | none => rw [hr] at hd; exact absurd hd (by simp)
  | some r =>
    rw [hr] at hd
    simp only
    rw [find?_append_some _ _ _ _ hr]
    exact hd

/-! ## Behaviour lemmas for swap lookups -/

theorem swapIdMatch_status_map (j k : Nat) (st : SwapStatus) (s : Swap) :
    ((if s.id == k then { s with status := st } else s).id == j) = (s.id == j) := by
  by_cases h : s.id == k <;> simp [h]

theorem swapIdMatch_taker_map (j k t : Nat) (st : SwapStatus) (s : Swap) :
    ((if s.id == k then { s with takerId := some t, status := st } else s).id == j) =
      (s.id == j) := by
  by_cases h : s.id == k <;> simp [h]

theorem get_swap_by_id_update_status_self (db : DB) (i : Nat) (st : SwapStatus) (s : Swap)
    (hs : get_swap_by_id db i = some s) :
    get_swap_by_id (update_swap_status db i st) i = some { s with status := st } := by
  unfold get_swap_by_id at hs ⊢
  unfold update_swap_status
  rw [find?_map_inv _ _ (swapIdMatch_status_map i i st)]
  rw [hs]
  have hidr : s.id = i := by
    have := List.find?_some hs
    simpa using this
  simp [hidr]

theorem get_swap_by_id_update_taker_self (db : DB) (i t : Nat) (st : SwapStatus) (s : Swap)
    (hs : get_swap_by_id db i = some s) :
    get_swap_by_id (update_swap_with_taker db i t st) i =
      some { s with takerId := some t, status := st } := by
  unfold get_swap_by_id at hs ⊢
  unfold update_swap_with_taker
  rw [find?_map_inv _ _ (swapIdMatch_taker_map i i t st)]
  rw [hs]
  have hidr : s.id = i := by
    have := List.find?_some hs
    simpa using this
  simp [hidr]

theorem get_swap_by_id_insert_self (db : DB) (m : Nat) (t : Option Nat) (mc tc : Nat)
    (ma ta : ℚ) (hb : swapIdsBounded db) :
    get_swap_by_id (insert_swap db m t mc tc ma ta).1 (insert_swap db m t mc tc ma ta).2 =
      some ⟨db.nextSwapId, m, t, mc, tc, ma, ta, SwapStatus.pending, db.now⟩ := by
  unfold get_swap_by_id insert_swap
  simp only
  have hnone : db.swaps.find? (fun s => s.id == db.nextSwapId) = none := by
    rw [List.find?_eq_none]
    intro s hsmem
    have := hb s hsmem
    simp [Nat.ne_of_lt this]
  rw [find?_append_none _ _ _ hnone]
  simp [List.find?]

theorem get_account_balance_update_zero (db : DB) (k u c : Nat) :
    get_account_balance (update_balance db k 0) u c = get_account_balance db u c := by
  unfold get_account_balance update_balance
  rw [find?_map_inv _ _ (acctMatch_balance_map u c k 0)]
  cases db.accounts.find? (acctMatch u c) with
  | none => rfl
  | some r => by_cases h : r.id = k <;> simp [h]

theorem acct_balance_by_id_update_zero (db : DB) (k j : Nat) :
    acct_balance_by_id (update_balance db k 0) j = acct_balance_by_id db j := by
  unfold acct_balance_by_id update_balance
  rw [find?_map_inv _ _ (idMatch_balance_map j k 0)]
  cases db.accounts.find? (fun a => a.id == j) with
  | none => rfl
  | some r => by_cases h : r.id = k <;> simp [h]

/-- Transfer `swapIdsBounded` along an operation that leaves the swap table
and its auto-increment counter unchanged. -/
theorem swapIdsBounded_of_eq (db db' : DB) (hs : db'.swaps = db.swaps)
    (hn : db'.nextSwapId = db.nextSwapId) (h : swapIdsBounded db) : swapIdsBounded db' := by
  unfold swapIdsBounded at h ⊢
  rw [hs, hn]
  exact h

/-! ## Concrete scenarios

`dbPair`: two guild currencies ABC (id 1) and XYZ (id 2); user 10 holds
100 ABC on account 1, user 20 holds 40 XYZ on account 2 (spec section 8,
scenarios 2-4). `dbOpen`: one currency ABC; maker 10 holds 100 ABC, users
20 and 30 hold 0 ABC. `dbWire`: one currency ABC with a configured
UnbelievaBoat credential; user 10 holds 25 ABC. -/

def dbPair : DB :=
  ⟨[⟨1, 100, "Alpha", "ABC"⟩, ⟨2, 200, "Xylo", "XYZ"⟩],
   [⟨1, 10, 1, 100⟩, ⟨2, 20, 2, 40⟩], [], [], [], [], 3, 1, 0⟩

/-- `dbPair` after user 10 creates the targeted swap offering 50 ABC for
40 XYZ from user 20 (scenario 2). -/
def dbPairSwap : DB := (execute_swap dbPair 10 50 "ABC" (some (20, 40, "XYZ"))).1

/-- `dbPairSwap` after the maker denies the pending swap (scenario 4). -/
def dbPairDenied : DB := (deny_swap dbPairSwap 10 1).1

/-- `dbPairSwap` after the designated taker accepts (scenario 3). -/
def dbPairAccepted : DB := (accept_swap dbPairSwap 20 1 901 902).1

def dbOpen : DB :=
  ⟨[⟨1, 100, "Alpha", "ABC"⟩],
   [⟨1, 10, 1, 100⟩, ⟨2, 20, 1, 0⟩, ⟨3, 30, 1, 0⟩], [], [], [], [], 4, 1, 0⟩

/-- `dbOpen` after user 10 creates an open swap offering 50 ABC. -/
def dbOpenPending : DB := (execute_swap dbOpen 10 50 "ABC" none).1

/-- What `accept_phase1` reads for user 20 on the pending open swap. -/
def raceInfoA : AcceptInfo := ⟨1, 1, none, 1, 1, 50, 0, 10, 2⟩

/-- What `accept_phase1` reads for user 30 on the pending open swap. -/
def raceInfoB : AcceptInfo := ⟨1, 1, none, 1, 1, 50, 0, 10, 3⟩

/-- State after user 20's mutation half of the racing accept has run. -/
def dbRaceAfterA : DB := (accept_phase2 dbOpenPending 20 raceInfoA 901 902).1

/-- State after user 30's mutation half has also run. -/
def dbRaceFinal : DB := (accept_phase2 dbRaceAfterA 30 raceInfoB 903 904).1

def dbWire : DB :=
  ⟨[⟨1, 100, "Alpha", "ABC"⟩], [⟨1, 10, 1, 25⟩], [], [], [], [1], 2, 1, 0⟩

/-- Partner behaviour: pre-check fetch succeeds (bank 200), the post-commit
balance re-fetch fails, the override would have succeeded. -/
def envRefetchFail : ExtEnv := ⟨.ok 200, .error .other, .ok ()⟩

/-- Partner behaviour: fetches succeed (bank 200), the balance override
(the PUT) fails with a server error. -/
def envSetFail : ExtEnv := ⟨.ok 200, .ok 200, .error .other⟩

/-! ## The claims -/

set_option maxRecDepth 100000

/-- C1: refuted on the code — creating the targeted swap under the canonical
escrow policy debits only the maker (10: 100 → 50 ABC, 20: 40 XYZ
untouched), yet `deny_swap` then credits the designated taker the
`taker_amount` that was never escrowed: after the deny the maker is back to
100 ABC but the taker holds 80 XYZ instead of the unchanged 40. The deny
path contradicts the source's own escrow comment ("taker will be deducted
on accept") and DM notice, creating 40 XYZ out of nothing. -/
theorem C1_deny_credits_unescrowed_taker :
    (execute_swap dbPair 10 50 "ABC" (some (20, 40, "XYZ"))).2 =
      .ok ⟨1, 10, some 20, "pending"⟩ ∧
    get_account_balance dbPairSwap 10 1 = some 50 ∧
    get_account_balance dbPairSwap 20 2 = some 40 ∧
    (deny_swap dbPairSwap 10 1).2 = .ok ⟨1, 10, 20, "cancelled"⟩ ∧
    get_account_balance dbPairDenied 10 1 = some 100 ∧
    get_account_balance dbPairDenied 20 2 = some 80 := by
  with_unfolding_all decide

/-- C2: refuted on the code — in `wire_in`, after the local `+amount` commit
(10's ABC balance 25 → 125), a failure of the post-commit balance re-fetch
(an external call of the saga) propagates with `?` and never reaches
`compensate_smite_balance`: the call returns `WireError::Api` with the local
balance still at 125, not restored to 25. -/
theorem C2_wirein_refetch_failure_skips_compensation :
    get_account_balance dbWire 10 1 = some 25 ∧
    (wire_in dbWire 10 100 "ABC" envRefetchFail).2 = .error .Api ∧
    get_account_balance (wire_in dbWire 10 100 "ABC" envRefetchFail).1 10 1 = some 125 := by
  with_unfolding_all decide

/-- C5: refuted on the code — `accept_swap` is the plain composition of a
read/validate phase and a mutation phase over separate pool statements with
no enclosing transaction, so in the interleaving where both racing accepts
run their read phase before either mutation phase, both observe
`status = pending`, both settle, and both return `accepted`: the maker's
50 ABC escrow is paid out twice (20 and 30 each end with 50 ABC while the
maker still holds 50). -/
theorem C5_double_accept_both_succeed :
    accept_phase1 dbOpenPending 20 1 = (dbOpenPending, .ok raceInfoA) ∧
    accept_phase1 dbOpenPending 30 1 = (dbOpenPending, .ok raceInfoB) ∧
    (accept_phase2 dbOpenPending 20 raceInfoA 901 902).2 = .ok ⟨1, 10, 20, "accepted"⟩ ∧
    (accept_phase2 dbRaceAfterA 30 raceInfoB 903 904).2 = .ok ⟨1, 10, 30, "accepted"⟩ ∧
    get_account_balance dbRaceFinal 10 1 = some 50 ∧
    get_account_balance dbRaceFinal 20 1 = some 50 ∧
    get_account_balance dbRaceFinal 30 1 = some 50 := by
  with_unfolding_all decide

/-- C4 (counterexample): on the scenario-3 acceptance the code writes the
two transaction legs but no trade-log row at all — `add_price_log` has no
caller — so "exactly one trade-log entry for the canonical currency pair"
is false: the trade log stays empty. -/
theorem C4_counterexample_no_tradelog_row :
    (accept_swap dbPairSwap 20 1 901 902).2 = .ok ⟨1, 10, 20, "accepted"⟩ ∧
    dbPairAccepted.txns =
      [⟨901, 2, 4, 40⟩, ⟨902, 1, 3, 50⟩] ∧
    dbPairAccepted.tradelog = [] := by
  with_unfolding_all decide

/-- C10: `normalize_pair` is a pure function of the two tickers; for
currencies with distinct tickers the two argument orders give the same
`(base, quote)` — ordered so the base ticker precedes the quote ticker
lexicographically — and `reversed` flags that are each other's negation. -/
theorem C10_normalize_pair_symmetry :
    ∀ (db : DB) (c1 c2 : Nat) (cur1 cur2 : Currency),
      get_currency_by_id db c1 = some cur1 →
      get_currency_by_id db c2 = some cur2 →
      cur1.ticker ≠ cur2.ticker →
      ∃ b q r, normalize_pair db c1 c2 = (b, q, r) ∧
        normalize_pair db c2 c1 = (b, q, !r) ∧
        ((get_currency_by_id db b).map Currency.ticker).getD "" ≤
          ((get_currency_by_id db q).map Currency.ticker).getD "" := by
  intro db c1 c2 cur1 cur2 h1 h2 hne
  by_cases h : cur1.ticker ≤ cur2.ticker
  · have hrev : ¬ (cur2.ticker ≤ cur1.ticker) := fun hle => hne (le_antisymm h hle)
    refine ⟨c1, c2, false, ?_, ?_, ?_⟩
    · unfold normalize_pair; rw [h1, h2]; simp [h]
    · unfold normalize_pair; rw [h1, h2]; simp [hrev]
    · rw [h1, h2]; simpa using h
  · have hrev : cur2.ticker ≤ cur1.ticker := le_of_not_le h
    refine ⟨c2, c1, true, ?_, ?_, ?_⟩
    · unfold normalize_pair; rw [h1, h2]; simp [h]
    · unfold normalize_pair; rw [h1, h2]; simp [hrev]
    · rw [h1, h2]; simpa using hrev

/-- C10 witness: the ABC/XYZ pair of `dbPair`, both orders. -/
theorem C10_witness :
    ∃ b q r, normalize_pair dbPair 1 2 = (b, q, r) ∧
      normalize_pair dbPair 2 1 = (b, q, !r) ∧
      ((get_currency_by_id dbPair b).map Currency.ticker).getD "" ≤
        ((get_currency_by_id dbPair q).map Currency.ticker).getD "" :=
  C10_normalize_pair_symmetry dbPair 1 2 ⟨1, 100, "Alpha", "ABC"⟩ ⟨2, 200, "Xylo", "XYZ"⟩
    (by with_unfolding_all decide) (by with_unfolding_all decide)
    (by with_unfolding_all decide)

/-- C9: over swaps whose maker amounts are positive (as swap creation
validates), `calculate_vwap` returns `None` exactly when no accepted swap
of the requested (base, quote) orientation lies in the window, and
otherwise the volume-weighted price Σ taker_amount / Σ maker_amount
(quote volume over base volume) over those swaps. -/
theorem C9_vwap_formula :
    ∀ (swaps : List Swap) (base quote cutoff : Nat),
      (∀ s ∈ vwap_qualifying swaps base quote cutoff, 0 < s.makerAmount) →
      (calculate_vwap swaps base quote cutoff = none ↔
        vwap_qualifying swaps base quote cutoff = []) ∧
      (vwap_qualifying swaps base quote cutoff ≠ [] →
        calculate_vwap swaps base quote cutoff =
          some (((vwap_qualifying swaps base quote cutoff).map Swap.takerAmount).sum /
            ((vwap_qualifying swaps base quote cutoff).map Swap.makerAmount).sum)) := by
  intro swaps base quote cutoff hpos
  by_cases hq : vwap_qualifying swaps base quote cutoff = []
  · refine ⟨⟨fun _ => hq, fun _ => ?_⟩, fun hne => absurd hq hne⟩
    unfold calculate_vwap
    rw [hq]
    simp
  · have hsum : 0 < ((vwap_qualifying swaps base quote cutoff).map Swap.makerAmount).sum := by
      apply List.sum_pos
      · intro x hx
        obtain ⟨s, hs, rfl⟩ := List.mem_map.mp hx
        exact hpos s hs
      · simpa using hq
    refine ⟨⟨fun hnone => ?_, fun h => absurd h hq⟩, fun _ => ?_⟩
    · unfold calculate_vwap at hnone
      rw [if_pos hsum] at hnone
      cases hnone
    · unfold calculate_vwap
      rw [if_pos hsum]

/-- C9 witness: one accepted 50-ABC-for-40-XYZ swap inside the window. -/
theorem C9_witness :
    (calculate_vwap [⟨1, 1, some 2, 1, 2, 50, 40, SwapStatus.accepted, 5⟩] 1 2 0 = none ↔
      vwap_qualifying [⟨1, 1, some 2, 1, 2, 50, 40, SwapStatus.accepted, 5⟩] 1 2 0 = []) ∧
    (vwap_qualifying [⟨1, 1, some 2, 1, 2, 50, 40, SwapStatus.accepted, 5⟩] 1 2 0 ≠ [] →
      calculate_vwap [⟨1, 1, some 2, 1, 2, 50, 40, SwapStatus.accepted, 5⟩] 1 2 0 =
        some ((([⟨1, 1, some 2, 1, 2, 50, 40, SwapStatus.accepted, 5⟩] :
            List Swap).map Swap.takerAmount).sum /
          (([⟨1, 1, some 2, 1, 2, 50, 40, SwapStatus.accepted, 5⟩] :
            List Swap).map Swap.makerAmount).sum)) := by
  have h := C9_vwap_formula [⟨1, 1, some 2, 1, 2, 50, 40, SwapStatus.accepted, 5⟩] 1 2 0
    (by with_unfolding_all decide)
  refine ⟨h.1, fun hne => ?_⟩
  rw [h.2 hne]
  with_unfolding_all rfl

/-- C6: in `wire_out`, once the local debit has committed, failure of either
external call (the balance re-fetch or the override) routes through
`compensate_smite_balance`, which rewrites the account balance to the value
read before the debit — the balance at the start of the call — and the
caller receives `WireError::Api`, not a success. -/
theorem C6_wireout_compensation_restores :
    ∀ (db : DB) (user : Nat) (amount : ℚ) (ticker : String) (env : ExtEnv)
      (c : Currency) (aid : Nat) (bal : ℚ),
      accountIdsNodup db →
      get_currency_by_ticker_with_guild db ticker = some c →
      c.id ∈ db.apiTokens →
      get_account_id db user c.id = some aid →
      get_account_balance db user c.id = some bal →
      amount ≤ bal →
      ((∃ e, env.get2 = .error e) ∨ (∃ e, env.setRes = .error e)) →
      ∃ db1, wire_out db user amount ticker env = (db1, .error .Api) ∧
        get_account_balance db1 user c.id = some bal := by
  intro db user amount ticker env c aid bal hnd hc htok hid hb hle hfail
  have hbid : acct_balance_by_id db aid = some bal :=
    acct_balance_by_id_of_match db user c.id aid bal hnd hid hb
  have hnotlt : ¬ ((get_account_balance db user c.id).getD 0 < amount) := by
    rw [hb]
    simpa using not_lt.mpr hle
  have hid1 : get_account_id (set_balance db aid (bal - amount)) user c.id = some aid := by
    rw [get_account_id_set_balance]
    exact hid
  have hrestore : get_account_balance
      (set_balance (set_balance db aid (bal - amount)) aid bal) user c.id = some bal :=
    get_account_balance_set_self _ aid bal user c.id hid1
  cases hget : env.get2 with
  | error e =>
    refine ⟨set_balance (set_balance db aid (bal - amount)) aid bal, ?_, hrestore⟩
    simp [wire_out, execute_wire_transfer, wire_main_phase, compensate_smite_balance,
      hc, htok, hnotlt, hid, hbid, hget]
  | ok b2 =>
    cases hset : env.setRes with
    | error e =>
      refine ⟨set_balance (set_balance db aid (bal - amount)) aid bal, ?_, hrestore⟩
      simp [wire_out, execute_wire_transfer, wire_main_phase, compensate_smite_balance,
        hc, htok, hnotlt, hid, hbid, hget, hset]
    | ok u =>
      exfalso
      rcases hfail with ⟨e, hge⟩ | ⟨e, hse⟩
      · rw [hget] at hge
        cases hge
      · rw [hset] at hse
        cases hse

/-- C6 witness: `wire_out(20, "ABC")` on `dbWire` (balance 25) with the
partner override failing: the balance is restored to 25 and the result is
the Api error. -/
theorem C6_witness :
    ∃ db1, wire_out dbWire 10 20 "ABC" envSetFail = (db1, .error .Api) ∧
      get_account_balance db1 10 1 = some 25 :=
  C6_wireout_compensation_restores dbWire 10 20 "ABC" envSetFail
    ⟨1, 100, "Alpha", "ABC"⟩ 1 25
    (by with_unfolding_all decide) (by with_unfolding_all decide)
    (by with_unfolding_all decide) (by with_unfolding_all decide)
    (by with_unfolding_all decide) (by with_unfolding_all decide)
    (Or.inr ⟨.other, rfl⟩)

/-- C7: every successful swap creation — targeted or open — debits the
maker's account by exactly `maker_amount` at creation time and inserts the
swap row with status `pending`. -/
theorem C7_creation_escrows_maker_and_inserts_pending :
    ∀ (db : DB) (maker : Nat) (mAmt : ℚ) (ticker : String)
      (takerOpt : Option (Nat × ℚ × String)) (c : Currency) (mAcc : Nat) (bal : ℚ)
      (db1 : DB) (res : SwapResult),
      swapIdsBounded db →
      get_currency_by_ticker db ticker = some c →
      get_account_id db maker c.id = some mAcc →
      get_account_balance db maker c.id = some bal →
      execute_swap db maker mAmt ticker takerOpt = (db1, .ok res) →
      get_account_balance db1 maker c.id = some (bal - mAmt) ∧
      ∃ s, get_swap_by_id db1 res.swapId = some s ∧
        s.status = .pending ∧ s.makerAmount = mAmt ∧ s.makerId = mAcc := by
  intro db maker mAmt ticker takerOpt c mAcc bal db1 res hbound hc hid hb h
  unfold execute_swap at h
  rw [hc] at h
  simp only [hid, hb] at h
  by_cases hlt : bal < mAmt
  · rw [if_pos hlt] at h
    simp at h
  rw [if_neg hlt] at h
  cases takerOpt with
  | none =>
    rw [Prod.mk.injEq] at h
    obtain ⟨h1, h2⟩ := h
    injection h2 with h2
    subst h1
    subst h2
    constructor
    · simp only [get_account_balance_insert_swap]
      rw [get_account_balance_update_self db mAcc (-mAmt) maker c.id bal hid hb]
      rw [← sub_eq_add_neg]
    · have hbound1 : swapIdsBounded (update_balance db mAcc (-mAmt)) :=
        swapIdsBounded_of_eq db _ (by simp) (by simp) hbound
      have hswap := get_swap_by_id_insert_self _ mAcc none c.id c.id mAmt 0 hbound1
      exact ⟨_, hswap, rfl, rfl, rfl⟩
  | some tinfo =>
    obtain ⟨tid, tAmt, tTicker⟩ := tinfo
    dsimp only at h
    cases hct : get_currency_by_ticker db tTicker with
    | none => rw [hct] at h; simp at h
    | some tc =>
      rw [hct] at h
      simp only at h
      cases hga : get_account_id db tid tc.id with
      | some tAcc =>
        rw [get_or_create_found db tid tc.id tAcc hga] at h
        simp only at h
        cases hgb : get_account_balance db tid tc.id with
        | none => rw [hgb] at h; simp at h
        | some tbal =>
          rw [hgb] at h
          simp only at h
          by_cases htlt : tbal < tAmt
          · rw [if_pos htlt] at h
            simp at h
          rw [if_neg htlt] at h
          rw [Prod.mk.injEq] at h
          obtain ⟨h1, h2⟩ := h
          injection h2 with h2
          subst h1
          subst h2
          constructor
          · simp only [get_account_balance_insert_swap]
            rw [get_account_balance_update_self db mAcc (-mAmt) maker c.id bal hid hb]
            rw [← sub_eq_add_neg]
          · have hbound1 : swapIdsBounded (update_balance db mAcc (-mAmt)) :=
              swapIdsBounded_of_eq db _ (by simp) (by simp) hbound
            have hswap := get_swap_by_id_insert_self _ mAcc (some tAcc) c.id tc.id mAmt tAmt
              hbound1
            exact ⟨_, hswap, rfl, rfl, rfl⟩
      | none =>
        have hcr : get_or_create_account db tid tc.id = create_account db tid tc.id := by
          unfold get_or_create_account
          rw [hga]
        rw [hcr] at h
        cases hgb : get_account_balance (create_account db tid tc.id).1 tid tc.id with
        | none => rw [hgb] at h; simp at h
        | some tbal =>
          rw [hgb] at h
          simp only at h
          by_cases htlt : tbal < tAmt
          · rw [if_pos htlt] at h
            simp at h
          rw [if_neg htlt] at h
          rw [Prod.mk.injEq] at h
          obtain ⟨h1, h2⟩ := h
          injection h2 with h2
          subst h1
          subst h2
          have hid1 : get_account_id (create_account db tid tc.id).1 maker c.id = some mAcc :=
            get_account_id_create db maker c.id mAcc tid tc.id hid
          have hb1 : get_account_balance (create_account db tid tc.id).1 maker c.id = some bal :=
            get_account_balance_create db maker c.id bal tid tc.id hb
          constructor
          · simp only [get_account_balance_insert_swap]
            rw [get_account_balance_update_self _ mAcc (-mAmt) maker c.id bal hid1 hb1]
            rw [← sub_eq_add_neg]
          · have hbound1 : swapIdsBounded
                (update_balance (create_account db tid tc.id).1 mAcc (-mAmt)) :=
              swapIdsBounded_of_eq db _ (by simp) (by simp) hbound
            have hswap := get_swap_by_id_insert_self _ mAcc
              (some (create_account db tid tc.id).2) c.id tc.id mAmt tAmt hbound1
            exact ⟨_, hswap, rfl, rfl, rfl⟩

/-- C7 witness: scenario 2 — maker 10 with 100 ABC offers 50 ABC for 40 XYZ
from user 20; the maker ends at 50 ABC and the inserted row is pending. -/
theorem C7_witness :
    get_account_balance dbPairSwap 10 1 = some (100 - 50) ∧
    ∃ s, get_swap_by_id dbPairSwap 1 = some s ∧
      s.status = .pending ∧ s.makerAmount = 50 ∧ s.makerId = 1 := by
  have h := C7_creation_escrows_maker_and_inserts_pending dbPair 10 50 "ABC"
    (some (20, 40, "XYZ")) ⟨1, 100, "Alpha", "ABC"⟩ 1 100 dbPairSwap
    ⟨1, 10, some 20, "pending"⟩
    (by with_unfolding_all decide) (by with_unfolding_all decide)
    (by with_unfolding_all decide) (by with_unfolding_all decide)
    (by
      show execute_swap dbPair 10 50 "ABC" (some (20, 40, "XYZ")) =
        (dbPairSwap, .ok ⟨1, 10, some 20, "pending"⟩)
      with_unfolding_all decide)
  exact h

/-- For an open swap the read/validate half never runs the balance check,
so after the authorization gate it always succeeds. -/
theorem accept_phase1_rest_open (db : DB) (user : Nat) (s : Swap) (m : Nat)
    (ht : s.takerId = none) :
    accept_phase1_rest db user s m =
      ((get_or_create_account (get_or_create_account db user s.takerCurrencyId).1
          user s.makerCurrencyId).1,
       .ok ⟨s.id, s.makerId, s.takerId, s.makerCurrencyId, s.takerCurrencyId,
         s.makerAmount, s.takerAmount, m, (get_or_create_account db user s.takerCurrencyId).2⟩) := by
  unfold accept_phase1_rest
  rw [ht]
  simp

/-- The mutation half of `accept_swap` performs no check at all: it always
returns the `accepted` echo. -/
theorem accept_phase2_ok (db : DB) (user : Nat) (info : AcceptInfo) (u1 u2 : Nat) :
    ∃ db1, accept_phase2 db user info u1 u2 =
      (db1, .ok ⟨info.sid, info.makerDiscordId, user, "accepted"⟩) := by
  unfold accept_phase2
  exact ⟨_, rfl⟩

/-- C8: on a pending swap, `accept_swap` rejects — before any mutation, the
database is returned unchanged — every actor other than the designated
taker of a targeted swap, and the maker of an open swap; any other actor on
an open swap passes authorization and the acceptance settles. -/
theorem C8_accept_authorization :
    (∀ (db : DB) (user sid u1 u2 : Nat) (s : Swap) (m tAcc td : Nat),
      get_swap_by_id db sid = some s →
      s.status = .pending →
      get_discord_id_by_account_id db s.makerId = some m →
      s.takerId = some tAcc →
      get_discord_id_by_account_id db tAcc = some td →
      td ≠ 0 →
      user ≠ td →
      accept_swap db user sid u1 u2 = (db, .error errNotAuthorizedTargeted)) ∧
    (∀ (db : DB) (user sid u1 u2 : Nat) (s : Swap) (m : Nat),
      get_swap_by_id db sid = some s →
      s.status = .pending →
      get_discord_id_by_account_id db s.makerId = some m →
      s.takerId = none →
      user = m →
      accept_swap db user sid u1 u2 = (db, .error errCannotAcceptOwnOpen)) ∧
    (∀ (db : DB) (user sid u1 u2 : Nat) (s : Swap) (m : Nat),
      get_swap_by_id db sid = some s →
      s.status = .pending →
      get_discord_id_by_account_id db s.makerId = some m →
      s.takerId = none →
      user ≠ m →
      ∃ db1 res, accept_swap db user sid u1 u2 = (db1, .ok res) ∧
        res.status = "accepted") := by
  refine ⟨?_, ?_, ?_⟩
  · intro db user sid u1 u2 s m tAcc td hs hst hm ht htd htd0 huser
    simp [accept_swap, accept_phase1, hs, hst, hm, ht, htd, htd0, huser]
  · intro db user sid u1 u2 s m hs hst hm ht huser
    subst huser
    simp [accept_swap, accept_phase1, hs, hst, hm, ht]
  · intro db user sid u1 u2 s m hs hst hm ht huser
    have h1 : accept_phase1 db user sid =
        ((get_or_create_account (get_or_create_account db user s.takerCurrencyId).1
            user s.makerCurrencyId).1,
         .ok ⟨s.id, s.makerId, s.takerId, s.makerCurrencyId, s.takerCurrencyId,
           s.makerAmount, s.takerAmount, m,
           (get_or_create_account db user s.takerCurrencyId).2⟩) := by
      simp [accept_phase1, hs, hst, hm, ht, huser, accept_phase1_rest_open db user s m ht]
    obtain ⟨db2, h2⟩ := accept_phase2_ok
      (get_or_create_account (get_or_create_account db user s.takerCurrencyId).1
        user s.makerCurrencyId).1 user
      ⟨s.id, s.makerId, s.takerId, s.makerCurrencyId, s.takerCurrencyId,
        s.makerAmount, s.takerAmount, m,
        (get_or_create_account db user s.takerCurrencyId).2⟩ u1 u2
    refine ⟨db2, ⟨s.id, m, user, "accepted"⟩, ?_, rfl⟩
    unfold accept_swap
    rw [h1]
    exact h2

/-- C8 witness: on the pending targeted swap of `dbPairSwap`, the
unauthorized actor 30 is rejected with the database unchanged; on the
pending open swap of `dbOpenPending` the maker 10 is rejected and the
outsider 20 settles. -/
theorem C8_witness :
    accept_swap dbPairSwap 30 1 901 902 = (dbPairSwap, .error errNotAuthorizedTargeted) ∧
    accept_swap dbOpenPending 10 1 901 902 = (dbOpenPending, .error errCannotAcceptOwnOpen) ∧
    ∃ db1 res, accept_swap dbOpenPending 20 1 901 902 = (db1, .ok res) ∧
      res.status = "accepted" := by
  refine ⟨?_, ?_, ?_⟩
  · exact C8_accept_authorization.1 dbPairSwap 30 1 901 902
      ⟨1, 1, some 2, 1, 2, 50, 40, .pending, 0⟩ 10 2 20
      (by with_unfolding_all decide) (by with_unfolding_all decide)
      (by with_unfolding_all decide) (by with_unfolding_all decide)
      (by with_unfolding_all decide) (by with_unfolding_all decide)
      (by with_unfolding_all decide)
  · exact C8_accept_authorization.2.1 dbOpenPending 10 1 901 902
      ⟨1, 1, none, 1, 1, 50, 0, .pending, 0⟩ 10
      (by with_unfolding_all decide) (by with_unfolding_all decide)
      (by with_unfolding_all decide) (by with_unfolding_all decide)
      (by with_unfolding_all decide)
  · exact C8_accept_authorization.2.2 dbOpenPending 20 1 901 902
      ⟨1, 1, none, 1, 1, 50, 0, .pending, 0⟩ 10
      (by with_unfolding_all decide) (by with_unfolding_all decide)
      (by with_unfolding_all decide) (by with_unfolding_all decide)
      (by with_unfolding_all decide)

theorem accept_phase1_rest_txns (db : DB) (u : Nat) (s : Swap) (m : Nat) :
    (accept_phase1_rest db u s m).1.txns = db.txns := by
  unfold accept_phase1_rest
  by_cases hts : s.takerId.isSome = true
  · simp only [hts, if_true]
    cases hb : get_account_balance
        (get_or_create_account (get_or_create_account db u s.takerCurrencyId).1
          u s.makerCurrencyId).1 u s.takerCurrencyId with
    | none => simp
    | some tb =>
      by_cases hlt : tb < s.takerAmount
      · simp [hlt]
      · simp [hlt]
  · simp [hts]

theorem accept_phase1_rest_tradelog (db : DB) (u : Nat) (s : Swap) (m : Nat) :
    (accept_phase1_rest db u s m).1.tradelog = db.tradelog := by
  unfold accept_phase1_rest
  by_cases hts : s.takerId.isSome = true
  · simp only [hts, if_true]
    cases hb : get_account_balance
        (get_or_create_account (get_or_create_account db u s.takerCurrencyId).1
          u s.makerCurrencyId).1 u s.takerCurrencyId with
    | none => simp
    | some tb =>
      by_cases hlt : tb < s.takerAmount
      · simp [hlt]
      · simp [hlt]
  · simp [hts]

/-- The read/validate half of `accept_swap` writes no transaction row (its
only writes are lazily created accounts). -/
theorem accept_phase1_txns (db : DB) (u sid : Nat) :
    (accept_phase1 db u sid).1.txns = db.txns := by
  unfold accept_phase1
  repeat' split
  all_goals dsimp only
  all_goals try (repeat' split)
  all_goals simp [accept_phase1_rest_txns]

/-- The read/validate half of `accept_swap` writes no trade-log row. -/
theorem accept_phase1_tradelog (db : DB) (u sid : Nat) :
    (accept_phase1 db u sid).1.tradelog = db.tradelog := by
  unfold accept_phase1
  repeat' split
  all_goals dsimp only
  all_goals try (repeat' split)
  all_goals simp [accept_phase1_rest_tradelog]

/-- The mutation half of `accept_swap` appends exactly the two transaction
legs — the taker-to-maker leg carrying `taker_amount` under `uuid1`, then
the maker-to-taker leg carrying `maker_amount` under `uuid2` — and never
touches the trade log. -/
theorem accept_phase2_txns_shape (db : DB) (u : Nat) (info : AcceptInfo) (u1 u2 : Nat) :
    ∃ r1 r2 : Nat, (accept_phase2 db u info u1 u2).1.txns =
      db.txns ++ [⟨u1, info.userTakerAccountId, r1, info.takerAmount⟩,
        ⟨u2, info.makerAccountId, r2, info.makerAmount⟩] ∧
      (accept_phase2 db u info u1 u2).1.tradelog = db.tradelog := by
  unfold accept_phase2
  cases info.takerIdExisting with
  | none =>
    exact ⟨(get_or_create_account
        (update_balance
          (get_or_create_account
            (update_swap_with_taker (update_balance db info.userTakerAccountId (-info.takerAmount))
              info.sid info.userTakerAccountId SwapStatus.accepted)
            u info.makerCurrencyId).1
          (get_or_create_account
            (update_swap_with_taker (update_balance db info.userTakerAccountId (-info.takerAmount))
              info.sid info.userTakerAccountId SwapStatus.accepted)
            u info.makerCurrencyId).2
          info.makerAmount)
        info.makerDiscordId info.takerCurrencyId).2,
      (get_or_create_account
            (update_swap_with_taker (update_balance db info.userTakerAccountId (-info.takerAmount))
              info.sid info.userTakerAccountId SwapStatus.accepted)
            u info.makerCurrencyId).2, by simp, by simp⟩
  | some x =>
    exact ⟨(get_or_create_account
        (update_balance
          (get_or_create_account
            (update_swap_status (update_balance db info.userTakerAccountId (-info.takerAmount))
              info.sid SwapStatus.accepted)
            u info.makerCurrencyId).1
          (get_or_create_account
            (update_swap_status (update_balance db info.userTakerAccountId (-info.takerAmount))
              info.sid SwapStatus.accepted)
            u info.makerCurrencyId).2
          info.makerAmount)
        info.makerDiscordId info.takerCurrencyId).2,
      (get_or_create_account
            (update_swap_status (update_balance db info.userTakerAccountId (-info.takerAmount))
              info.sid SwapStatus.accepted)
            u info.makerCurrencyId).2, by simp, by simp⟩

/-- C4 (amended): every successful acceptance appends exactly two
transaction rows — the taker-to-maker leg under the first uuid and the
maker-to-taker leg under the second — and writes no trade-log entry at all:
the trade-log table is left exactly as it was. -/
theorem C4_accept_two_txn_legs_no_tradelog :
    ∀ (db : DB) (user sid u1 u2 : Nat) (db1 : DB) (res : AcceptDenyResult),
      accept_swap db user sid u1 u2 = (db1, .ok res) →
      (∃ t1 t2 : Txn, db1.txns = db.txns ++ [t1, t2] ∧ t1.uuid = u1 ∧ t2.uuid = u2) ∧
      db1.tradelog = db.tradelog := by
  intro db user sid u1 u2 db1 res h
  unfold accept_swap at h
  cases hp : accept_phase1 db user sid with
  | mk dbX r =>
    rw [hp] at h
    cases r with
    | error e => simp at h
    | ok info =>
      simp only at h
      have hX : dbX.txns = db.txns ∧ dbX.tradelog = db.tradelog := by
        have h1 := accept_phase1_txns db user sid
        have h2 := accept_phase1_tradelog db user sid
        rw [hp] at h1 h2
        exact ⟨h1, h2⟩
      obtain ⟨r1, r2, htx, htl⟩ := accept_phase2_txns_shape dbX user info u1 u2
      have hdb1 : db1 = (accept_phase2 dbX user info u1 u2).1 := by
        rw [h]
      subst hdb1
      refine ⟨⟨⟨u1, info.userTakerAccountId, r1, info.takerAmount⟩,
        ⟨u2, info.makerAccountId, r2, info.makerAmount⟩, ?_, rfl, rfl⟩, ?_⟩
      · rw [htx, hX.1]
      · rw [htl, hX.2]

/-- C4 witness: scenario 3 — the acceptance of the 50-ABC-for-40-XYZ swap
appends its two legs (uuids 901 and 902) and leaves the trade log empty. -/
theorem C4_witness :
    (∃ t1 t2 : Txn, dbPairAccepted.txns = dbPairSwap.txns ++ [t1, t2] ∧
      t1.uuid = 901 ∧ t2.uuid = 902) ∧
    dbPairAccepted.tradelog = dbPairSwap.tradelog :=
  C4_accept_two_txn_legs_no_tradelog dbPairSwap 20 1 901 902 dbPairAccepted
    ⟨1, 10, 20, "accepted"⟩
    (by
      show accept_swap dbPairSwap 20 1 901 902 = (dbPairAccepted, .ok ⟨1, 10, 20, "accepted"⟩)
      with_unfolding_all decide)

/-- The mutation half always returns the `accepted` echo built from the
carried info, alongside whatever database it produced. -/
theorem accept_phase2_result (db : DB) (u : Nat) (info : AcceptInfo) (u1 u2 : Nat) :
    accept_phase2 db u info u1 u2 =
      ((accept_phase2 db u info u1 u2).1,
       .ok ⟨info.sid, info.makerDiscordId, u, "accepted"⟩) := by
  unfold accept_phase2
  cases info.takerIdExisting <;> rfl

/-- Balance effect of the mutation half on an open swap (`taker_id` null,
`taker_amount` 0, both currency columns equal): the acceptor's account is
debited 0 and credited the full `maker_amount`, and the maker's escrow
account is credited 0, i.e. left with its pre-accept balance. -/
theorem accept_phase2_open_balances (db : DB) (u : Nat) (info : AcceptInfo)
    (u1 u2 : Nat) (b : ℚ)
    (hnone : info.takerIdExisting = none)
    (h0 : info.takerAmount = 0)
    (huacc : get_account_id db u info.makerCurrencyId = some info.userTakerAccountId)
    (hmacc : get_account_id db info.makerDiscordId info.takerCurrencyId =
      some info.makerAccountId)
    (hneacc : info.userTakerAccountId ≠ info.makerAccountId)
    (hb : get_account_balance db u info.makerCurrencyId = some b) :
    get_account_balance (accept_phase2 db u info u1 u2).1 u info.makerCurrencyId =
      some (b + info.makerAmount) ∧
    acct_balance_by_id (accept_phase2 db u info u1 u2).1 info.makerAccountId =
      acct_balance_by_id db info.makerAccountId := by
  unfold accept_phase2
  rw [hnone]
  dsimp only
  simp only [h0, neg_zero]
  have e1 : get_account_id
      (update_swap_with_taker (update_balance db info.userTakerAccountId 0)
        info.sid info.userTakerAccountId SwapStatus.accepted)
      u info.makerCurrencyId = some info.userTakerAccountId := by
    rw [get_account_id_update_swap_with_taker, get_account_id_update_balance]
    exact huacc
  rw [get_or_create_found _ _ _ _ e1]
  dsimp only
  have e2 : get_account_id
      (update_balance
        (update_swap_with_taker (update_balance db info.userTakerAccountId 0)
          info.sid info.userTakerAccountId SwapStatus.accepted)
        info.userTakerAccountId info.makerAmount)
      info.makerDiscordId info.takerCurrencyId = some info.makerAccountId := by
    rw [get_account_id_update_balance, get_account_id_update_swap_with_taker,
      get_account_id_update_balance]
    exact hmacc
  rw [get_or_create_found _ _ _ _ e2]
  dsimp only
  constructor
  · simp only [get_account_balance_create_transaction]
    rw [get_account_balance_update_zero]
    have hbA : get_account_balance
        (update_swap_with_taker (update_balance db info.userTakerAccountId 0)
          info.sid info.userTakerAccountId SwapStatus.accepted)
        u info.makerCurrencyId = some b := by
      rw [get_account_balance_update_swap_with_taker, get_account_balance_update_zero]
      exact hb
    exact get_account_balance_update_self _ info.userTakerAccountId info.makerAmount
      u info.makerCurrencyId b e1 hbA
  · simp only [acct_balance_by_id_create_transaction]
    rw [acct_balance_by_id_update_zero]
    rw [acct_balance_by_id_update_other _ info.userTakerAccountId info.makerAccountId
      info.makerAmount (Ne.symm hneacc)]
    rw [acct_balance_by_id_update_swap_with_taker]
    rw [acct_balance_by_id_update_zero]

/-- C3: an open swap is persisted with `taker_amount = 0` and
`taker_currency = maker_currency`; consequently accepting an open swap
debits the acceptor 0, credits the maker 0 (the escrow account keeps its
post-creation balance), and credits the acceptor the full `maker_amount` —
the maker receives nothing in exchange. -/
theorem C3_open_swap_zero_taker_side :
    (∀ (db : DB) (maker : Nat) (mAmt : ℚ) (ticker : String) (db1 : DB) (res : SwapResult),
      swapIdsBounded db →
      execute_swap db maker mAmt ticker none = (db1, .ok res) →
      ∃ s, get_swap_by_id db1 res.swapId = some s ∧
        s.takerAmount = 0 ∧ s.takerCurrencyId = s.makerCurrencyId) ∧
    (∀ (db : DB) (user sid u1 u2 : Nat) (s : Swap) (m uacc : Nat) (b : ℚ),
      get_swap_by_id db sid = some s →
      s.status = .pending →
      s.takerId = none →
      s.takerAmount = 0 →
      s.takerCurrencyId = s.makerCurrencyId →
      get_discord_id_by_account_id db s.makerId = some m →
      user ≠ m →
      get_account_id db user s.makerCurrencyId = some uacc →
      uacc ≠ s.makerId →
      get_account_id db m s.makerCurrencyId = some s.makerId →
      get_account_balance db user s.makerCurrencyId = some b →
      ∃ db1 res, accept_swap db user sid u1 u2 = (db1, .ok res) ∧
        get_account_balance db1 user s.makerCurrencyId = some (b + s.makerAmount) ∧
        acct_balance_by_id db1 s.makerId = acct_balance_by_id db s.makerId) := by
  constructor
  · intro db maker mAmt ticker db1 res hbound h
    unfold execute_swap at h
    cases hc : get_currency_by_ticker db ticker with
    | none => rw [hc] at h; simp at h
    | some mc =>
      rw [hc] at h
      simp only at h
      cases hid : get_account_id db maker mc.id with
      | none => rw [hid] at h; simp at h
      | some mAcc =>
        rw [hid] at h
        simp only at h
        cases hbal : get_account_balance db maker mc.id with
        | none => rw [hbal] at h; simp at h
        | some bal =>
          rw [hbal] at h
          simp only at h
          by_cases hlt : bal < mAmt
          · rw [if_pos hlt] at h
            simp at h
          rw [if_neg hlt] at h
          rw [Prod.mk.injEq] at h
          obtain ⟨h1, h2⟩ := h
          injection h2 with h2
          subst h1
          subst h2
          have hbound1 : swapIdsBounded (update_balance db mAcc (-mAmt)) :=
            swapIdsBounded_of_eq db _ (by simp) (by simp) hbound
          have hswap := get_swap_by_id_insert_self _ mAcc none mc.id mc.id mAmt 0 hbound1
          exact ⟨_, hswap, rfl, rfl⟩
  · intro db user sid u1 u2 s m uacc b hs hst ht h0 heq hm huser huacc hneacc hmacc hb
    have hrest : accept_phase1_rest db user s m =
        (db, .ok ⟨s.id, s.makerId, none, s.makerCurrencyId, s.makerCurrencyId,
          s.makerAmount, 0, m, uacc⟩) := by
      unfold accept_phase1_rest
      simp [heq, h0, ht, get_or_create_found db user s.makerCurrencyId uacc huacc]
    have h1 : accept_phase1 db user sid =
        (db, .ok ⟨s.id, s.makerId, none, s.makerCurrencyId, s.makerCurrencyId,
          s.makerAmount, 0, m, uacc⟩) := by
      simp [accept_phase1, hs, hst, hm, ht, huser, hrest]
    have hbal := accept_phase2_open_balances db user
      ⟨s.id, s.makerId, none, s.makerCurrencyId, s.makerCurrencyId,
        s.makerAmount, 0, m, uacc⟩ u1 u2 b rfl rfl huacc hmacc hneacc hb
    refine ⟨(accept_phase2 db user
        ⟨s.id, s.makerId, none, s.makerCurrencyId, s.makerCurrencyId,
          s.makerAmount, 0, m, uacc⟩ u1 u2).1,
      ⟨s.id, m, user, "accepted"⟩, ?_, hbal.1, hbal.2⟩
    unfold accept_swap
    rw [h1]
    exact accept_phase2_result db user
      ⟨s.id, s.makerId, none, s.makerCurrencyId, s.makerCurrencyId,
        s.makerAmount, 0, m, uacc⟩ u1 u2

/-- C3 witness: the open swap of `dbOpen`/`dbOpenPending` accepted by user
20 (holding 0 ABC): the row has `taker_amount = 0` and equal currencies;
after the acceptance user 20 holds 0 + 50 ABC and the maker escrow account
keeps its post-creation balance. -/
theorem C3_witness :
    (∃ s, get_swap_by_id dbOpenPending 1 = some s ∧
      s.takerAmount = 0 ∧ s.takerCurrencyId = s.makerCurrencyId) ∧
    ∃ db1 res, accept_swap dbOpenPending 20 1 901 902 = (db1, .ok res) ∧
      get_account_balance db1 20 1 = some (0 + 50) ∧
      acct_balance_by_id db1 1 = acct_balance_by_id dbOpenPending 1 := by
  constructor
  · exact C3_open_swap_zero_taker_side.1 dbOpen 10 50 "ABC" dbOpenPending
      ⟨1, 10, none, "open"⟩ (by with_unfolding_all decide)
      (by
        show execute_swap dbOpen 10 50 "ABC" none = (dbOpenPending, .ok ⟨1, 10, none, "open"⟩)
        with_unfolding_all decide)
  · exact C3_open_swap_zero_taker_side.2 dbOpenPending 20 1 901 902
      ⟨1, 1, none, 1, 1, 50, 0, .pending, 0⟩ 10 2 0
      (by with_unfolding_all decide) (by with_unfolding_all decide)
      (by with_unfolding_all decide) (by with_unfolding_all decide)
      (by with_unfolding_all decide) (by with_unfolding_all decide)
      (by with_unfolding_all decide) (by with_unfolding_all decide)
      (by with_unfolding_all decide) (by with_unfolding_all decide)
      (by with_unfolding_all decide)

end Smite
